import Mathlib

/-!
Shallow embedding of the repository source file
webrtc/modules/audio_device/audio_device_buffer.cc (class AudioDeviceBuffer).

Modelling conventions.
* PCM buffers are lists of signed 16-bit sample values (List Int); a byte
  count in the source corresponds to twice the sample count here, since
  every sample occupies sizeof(int16_t) = 2 bytes.
* The serialized task queue is modelled as fully drained: a task posted by
  a method (ResetRecStats, ResetPlayStats, UpdateRecStats, UpdatePlayStats)
  is applied synchronously, in FIFO order.  This matches every state that is
  observed after the queue has run dry, which is what the claims quantify
  over.
* Wall-clock time (rtc::TimeMillis) is passed to each operation explicitly,
  in milliseconds.
* rec_peaks and play_peaks are instrumentation fields that record, in order,
  every value returned by a call to WebRtcSpl_MaxAbsValueW16, so that
  theorems can count peak computations and inspect the computed peaks.  No
  source field corresponds to them and no modelled operation reads them.
* The periodic LogStats timer chain is driven explicitly: the simulation
  function runReporterTicks fires the LOG_START task at time 0 and one
  LOG_ACTIVE task every kTimerIntervalInMilliseconds thereafter, which is
  the schedule the source establishes through PostDelayedTask.
-/

/-- Time between two successive calls to LogStats, in seconds
(kTimerIntervalInSeconds in the source). -/
def kTimerIntervalInSeconds : Nat := 10

/-- Timer interval converted to milliseconds. -/
def kTimerIntervalInMilliseconds : Nat := kTimerIntervalInSeconds * 1000

/-- Min time required to qualify an audio session as a call, in seconds
(kMinValidCallTimeTimeInSeconds in the source). -/
def kMinValidCallTimeTimeInSeconds : Nat := 10

/-- Minimum valid call time converted to milliseconds. -/
def kMinValidCallTimeTimeInMilliseconds : Nat := kMinValidCallTimeTimeInSeconds * 1000

/-- AudioDeviceModule::ChannelType, the argument type of SetRecordingChannel.
The type itself is declared outside this file; its three alternatives are
named in the source through the kChannelBoth sentinel and the left/right
selections the legacy API offered. -/
inductive ChannelType
  | kChannelLeft
  | kChannelRight
  | kChannelBoth
deriving DecidableEq

/-- The external AudioTransport collaborator, an opaque callback contract.
recordedDataIsAvailable receives (audioSamples, nSamples, nBytesPerSample,
nChannels, samplesPerSec, totalDelayMS, clockDrift, currentMicLevel,
keyPressed) and returns (result, newMicLevel); a result of -1 signals
failure.  needMorePlayData receives (nSamples, nBytesPerSample, nChannels,
samplesPerSec) and returns (the samples it writes into the playout buffer,
nSamplesOut, result). -/
structure AudioTransport where
  recordedDataIsAvailable :
    List Int → Nat → Nat → Nat → Nat → Nat → Int → Nat → Bool → Int × Nat
  needMorePlayData : Nat → Nat → Nat → Nat → List Int × Nat × Int

/-- The state of one AudioDeviceBuffer object: every data member of the
class that the modelled operations touch, plus the two instrumentation
fields rec_peaks and play_peaks described in the file header. -/
structure AudioDeviceBuffer where
  audio_transport_cb : Option AudioTransport
  rec_sample_rate : Nat
  play_sample_rate : Nat
  rec_channels : Nat
  play_channels : Nat
  playing : Bool
  recording : Bool
  current_mic_level : Nat
  new_mic_level : Nat
  typing_status : Bool
  play_delay_ms : Nat
  rec_delay_ms : Nat
  clock_drift : Int
  num_stat_reports : Nat
  rec_callbacks : Nat
  last_rec_callbacks : Nat
  play_callbacks : Nat
  last_play_callbacks : Nat
  rec_samples : Nat
  last_rec_samples : Nat
  play_samples : Nat
  last_play_samples : Nat
  max_rec_level : Nat
  max_play_level : Nat
  last_timer_task_time : Nat
  rec_stat_count : Nat
  play_stat_count : Nat
  play_start_time : Nat
  rec_start_time : Nat
  only_silence_recorded : Bool
  rec_buffer : List Int
  play_buffer : List Int
  rec_peaks : List Nat
  play_peaks : List Nat

/-- The constructor AudioDeviceBuffer::AudioDeviceBuffer: every member is
zero-initialised except only_silence_recorded, which starts true. -/
def AudioDeviceBuffer.init : AudioDeviceBuffer where
  audio_transport_cb := none
  rec_sample_rate := 0
  play_sample_rate := 0
  rec_channels := 0
  play_channels := 0
  playing := false
  recording := false
  current_mic_level := 0
  new_mic_level := 0
  typing_status := false
  play_delay_ms := 0
  rec_delay_ms := 0
  clock_drift := 0
  num_stat_reports := 0
  rec_callbacks := 0
  last_rec_callbacks := 0
  play_callbacks := 0
  last_play_callbacks := 0
  rec_samples := 0
  last_rec_samples := 0
  play_samples := 0
  last_play_samples := 0
  max_rec_level := 0
  max_play_level := 0
  last_timer_task_time := 0
  rec_stat_count := 0
  play_stat_count := 0
  play_start_time := 0
  rec_start_time := 0
  only_silence_recorded := true
  rec_buffer := []
  play_buffer := []
  rec_peaks := []
  play_peaks := []

/-- Modelled from the spec: WebRtcSpl_MaxAbsValueW16 lives in the external
signal-processing library, outside this repository.  The source comment at
its call sites and the spec glossary describe it as returning the largest
absolute value among the signed 16-bit samples of a vector, which is what
this function computes. -/
def WebRtcSpl_MaxAbsValueW16 (v : List Int) : Nat :=
  v.foldl (fun m x => max m x.natAbs) 0

/-- rtc::Buffer::SetData - the buffer afterwards holds exactly the first n
samples of the source data (zero-padded if the source is shorter, which the
contract of the source never exercises). -/
def bufferSetData (data : List Int) (n : Nat) : List Int :=
  data.take n ++ List.replicate (n - data.length) 0

/-- rtc::Buffer::SetSize - keeps the existing prefix and extends with
unspecified bytes, modelled as zero samples. -/
def bufferSetSize (l : List Int) (n : Nat) : List Int :=
  l.take n ++ List.replicate (n - l.length) 0

/-- Writing transport-produced samples into the front of an existing buffer
of fixed size: the buffer keeps its length, the written prefix is replaced. -/
def writeInto (buf data : List Int) : List Int :=
  (data ++ buf.drop data.length).take buf.length

/-- AudioDeviceBuffer::RegisterAudioCallback (lines 86-96): fails with -1 if
either direction is active, otherwise stores the callback and returns 0. -/
def AudioDeviceBuffer.RegisterAudioCallback (s : AudioDeviceBuffer)
    (audio_callback : Option AudioTransport) : Int × AudioDeviceBuffer :=
  if s.playing || s.recording then (-1, s)
  else (0, { s with audio_transport_cb := audio_callback })

/-- AudioDeviceBuffer::ResetRecStats (lines 489-496). -/
def AudioDeviceBuffer.ResetRecStats (s : AudioDeviceBuffer) : AudioDeviceBuffer :=
  { s with rec_callbacks := 0, last_rec_callbacks := 0,
           rec_samples := 0, last_rec_samples := 0, max_rec_level := 0 }

/-- AudioDeviceBuffer::ResetPlayStats (lines 498-505). -/
def AudioDeviceBuffer.ResetPlayStats (s : AudioDeviceBuffer) : AudioDeviceBuffer :=
  { s with play_callbacks := 0, last_play_callbacks := 0,
           play_samples := 0, last_play_samples := 0, max_play_level := 0 }

/-- AudioDeviceBuffer::StartRecording (lines 121-142): no-op when already
recording; otherwise drains the posted ResetRecStats task, records the start
time, sets the recording flag and resets only_silence_recorded to true.
The StartPeriodicLogging call feeds the reporter chain, which is simulated
separately by runReporterTicks. -/
def AudioDeviceBuffer.StartRecording (s : AudioDeviceBuffer) (now : Nat) :
    AudioDeviceBuffer :=
  if s.recording then s
  else { s.ResetRecStats with rec_start_time := now, recording := true,
                              only_silence_recorded := true }

/-- AudioDeviceBuffer::StartPlayout (lines 98-119): no-op when already
playing; otherwise drains the posted ResetPlayStats task, records the start
time and sets the playing flag. -/
def AudioDeviceBuffer.StartPlayout (s : AudioDeviceBuffer) (now : Nat) :
    AudioDeviceBuffer :=
  if s.playing then s
  else { s.ResetPlayStats with play_start_time := now, playing := true }

/-- AudioDeviceBuffer::StopRecording (lines 158-186): no-op when not
recording.  Otherwise clears the recording flag and, when the elapsed time
since rec_start_time strictly exceeds kMinValidCallTimeTimeInMilliseconds,
emits the WebRTC.Audio.RecordedOnlyZeros histogram event carrying the value
of only_silence_recorded.  The first component is that emission: some b when
the event fires with value b, none when nothing is emitted. -/
def AudioDeviceBuffer.StopRecording (s : AudioDeviceBuffer) (now : Nat) :
    Option Bool × AudioDeviceBuffer :=
  if s.recording = false then (none, s)
  else
    let s1 := { s with recording := false }
    if kMinValidCallTimeTimeInMilliseconds < now - s1.rec_start_time then
      (some s1.only_silence_recorded, s1)
    else (none, s1)

/-- AudioDeviceBuffer::StopPlayout (lines 144-156): no-op when not playing,
otherwise clears the playing flag. -/
def AudioDeviceBuffer.StopPlayout (s : AudioDeviceBuffer) (_now : Nat) :
    AudioDeviceBuffer :=
  if s.playing = false then s else { s with playing := false }

/-- AudioDeviceBuffer::SetRecordingSampleRate (lines 188-193). -/
def AudioDeviceBuffer.SetRecordingSampleRate (s : AudioDeviceBuffer)
    (fsHz : Nat) : Int × AudioDeviceBuffer :=
  (0, { s with rec_sample_rate := fsHz })

/-- AudioDeviceBuffer::SetPlayoutSampleRate (lines 195-200). -/
def AudioDeviceBuffer.SetPlayoutSampleRate (s : AudioDeviceBuffer)
    (fsHz : Nat) : Int × AudioDeviceBuffer :=
  (0, { s with play_sample_rate := fsHz })

/-- AudioDeviceBuffer::SetRecordingChannels (lines 212-217). -/
def AudioDeviceBuffer.SetRecordingChannels (s : AudioDeviceBuffer)
    (channels : Nat) : Int × AudioDeviceBuffer :=
  (0, { s with rec_channels := channels })

/-- AudioDeviceBuffer::SetPlayoutChannels (lines 219-224). -/
def AudioDeviceBuffer.SetPlayoutChannels (s : AudioDeviceBuffer)
    (channels : Nat) : Int × AudioDeviceBuffer :=
  (0, { s with play_channels := channels })

/-- AudioDeviceBuffer::SetRecordingChannel (lines 226-234): logs a
not-implemented warning and returns -1 unconditionally, leaving the state
untouched.  The RTC_DCHECK_EQ it contains is captured separately by
SetRecordingChannelAssertionHolds. -/
def AudioDeviceBuffer.SetRecordingChannel (s : AudioDeviceBuffer)
    (_channel : ChannelType) : Int × AudioDeviceBuffer :=
  (-1, s)

/-- The RTC_DCHECK_EQ(channel, AudioDeviceModule::kChannelBoth) guard inside
SetRecordingChannel (line 232): the debug assertion holds exactly for the
both-channels sentinel. -/
def SetRecordingChannelAssertionHolds (channel : ChannelType) : Prop :=
  channel = ChannelType.kChannelBoth

/-- AudioDeviceBuffer::UpdateRecStats (lines 507-514), executed on the
serialized task queue. -/
def AudioDeviceBuffer.UpdateRecStats (s : AudioDeviceBuffer)
    (max_abs num_samples : Nat) : AudioDeviceBuffer :=
  { s with rec_callbacks := s.rec_callbacks + 1,
           rec_samples := s.rec_samples + num_samples,
           max_rec_level := if s.max_rec_level < max_abs then max_abs
                            else s.max_rec_level }

/-- AudioDeviceBuffer::UpdatePlayStats (lines 516-523), executed on the
serialized task queue. -/
def AudioDeviceBuffer.UpdatePlayStats (s : AudioDeviceBuffer)
    (max_abs num_samples : Nat) : AudioDeviceBuffer :=
  { s with play_callbacks := s.play_callbacks + 1,
           play_samples := s.play_samples + num_samples,
           max_play_level := if s.max_play_level < max_abs then max_abs
                             else s.max_play_level }

/-- AudioDeviceBuffer::SetRecordedBuffer (lines 303-338): copies
num_samples * rec_channels samples into rec_buffer; on every call that
brings the wrapping rec_stat_count to 50 it computes the peak absolute value
over the copied samples, resets the counter and clears
only_silence_recorded when the peak is non-zero; finally the posted
UpdateRecStats task (drained here) runs with the peak (zero on the calls
that skipped the computation) and the frame count. -/
def AudioDeviceBuffer.SetRecordedBuffer (s : AudioDeviceBuffer)
    (audio_buffer : List Int) (num_samples : Nat) : AudioDeviceBuffer :=
  let size := num_samples * s.rec_channels
  let s1 := { s with rec_buffer := bufferSetData audio_buffer size }
  if 50 ≤ s1.rec_stat_count + 1 then
    let max_abs := WebRtcSpl_MaxAbsValueW16 (s1.rec_buffer.take size)
    AudioDeviceBuffer.UpdateRecStats
      { s1 with rec_stat_count := 0,
                rec_peaks := s1.rec_peaks ++ [max_abs],
                only_silence_recorded :=
                  if 0 < max_abs then false else s1.only_silence_recorded }
      max_abs num_samples
  else
    AudioDeviceBuffer.UpdateRecStats
      { s1 with rec_stat_count := s1.rec_stat_count + 1 } 0 num_samples

/-- AudioDeviceBuffer::DeliverRecordedData (lines 340-360): without a
transport, logs and leaves the state unchanged (first component none).
With a transport, derives the sample count from the buffer size and invokes
RecordedDataIsAvailable; the first component records the sample count the
transport was invoked with, and a non-failure result stores the new mic
level. -/
def AudioDeviceBuffer.DeliverRecordedData (s : AudioDeviceBuffer) :
    Option Nat × AudioDeviceBuffer :=
  match s.audio_transport_cb with
  | none => (none, s)
  | some cb =>
    let rec_bytes_per_sample := s.rec_channels * 2
    let total_delay_ms := s.play_delay_ms + s.rec_delay_ms
    let num_samples := 2 * s.rec_buffer.length / rec_bytes_per_sample
    let r := cb.recordedDataIsAvailable s.rec_buffer num_samples
      rec_bytes_per_sample s.rec_channels s.rec_sample_rate total_delay_ms
      s.clock_drift s.current_mic_level s.typing_status
    if r.1 ≠ -1 then (some num_samples, { s with new_mic_level := r.2 })
    else (some num_samples, s)

/-- AudioDeviceBuffer::RequestPlayoutData (lines 362-410): resizes the
playout buffer when the requested byte size changed; without a transport
returns 0 produced frames right after the resize.  With a transport it
invokes NeedMorePlayData, lets it write the buffer, computes the peak on
every call that brings the wrapping play_stat_count to 50, drains the posted
UpdatePlayStats task and returns the frames the transport produced. -/
def AudioDeviceBuffer.RequestPlayoutData (s : AudioDeviceBuffer)
    (num_samples : Nat) : AudioDeviceBuffer × Nat :=
  let newbuf :=
    if 2 * s.play_buffer.length ≠ num_samples * (s.play_channels * 2) then
      bufferSetSize s.play_buffer (num_samples * s.play_channels)
    else s.play_buffer
  match s.audio_transport_cb with
  | none => ({ s with play_buffer := newbuf }, 0)
  | some cb =>
    let r := cb.needMorePlayData num_samples (s.play_channels * 2)
      s.play_channels s.play_sample_rate
    let num_samples_out := r.2.1
    let s2 := { s with play_buffer := writeInto newbuf r.1 }
    if 50 ≤ s2.play_stat_count + 1 then
      let max_abs :=
        WebRtcSpl_MaxAbsValueW16 (s2.play_buffer.take (num_samples * s.play_channels))
      (AudioDeviceBuffer.UpdatePlayStats
        { s2 with play_stat_count := 0,
                  play_peaks := s2.play_peaks ++ [max_abs] }
        max_abs num_samples_out, num_samples_out)
    else
      (AudioDeviceBuffer.UpdatePlayStats
        { s2 with play_stat_count := s2.play_stat_count + 1 }
        0 num_samples_out, num_samples_out)

/-- AudioDeviceBuffer::GetPlayoutData (lines 412-418): copies the whole
playout buffer out (second component) and returns the frame count derived
from the buffer size (first component). -/
def AudioDeviceBuffer.GetPlayoutData (s : AudioDeviceBuffer) :
    Nat × List Int :=
  (2 * s.play_buffer.length / (s.play_channels * 2), s.play_buffer)

/-- The LogState argument of AudioDeviceBuffer::LogStats. -/
inductive LogState
  | LOG_START
  | LOG_ACTIVE
  | LOG_STOP
deriving DecidableEq

/-- The shared tail of AudioDeviceBuffer::LogStats (lines 445-487) that runs
for the LOG_START and LOG_ACTIVE states: computes the time since the last
tick, increments the report counter, emits the two per-direction log lines
when the counter exceeds one and the elapsed time is positive (the Bool
component), then rolls the last-interval counters forward and clears the
peak levels. -/
def AudioDeviceBuffer.LogStatsCommon (s : AudioDeviceBuffer) (now : Nat) :
    AudioDeviceBuffer × Bool :=
  let emitted := decide (1 < s.num_stat_reports + 1 ∧ s.last_timer_task_time < now)
  ({ s with num_stat_reports := s.num_stat_reports + 1,
            last_timer_task_time := now,
            last_rec_callbacks := s.rec_callbacks,
            last_play_callbacks := s.play_callbacks,
            last_rec_samples := s.rec_samples,
            last_play_samples := s.play_samples,
            max_rec_level := 0,
            max_play_level := 0 }, emitted)

/-- AudioDeviceBuffer::LogStats (lines 430-487): LOG_STOP returns without
logging or rescheduling; LOG_START zeroes the report counter and stamps the
tick time before falling through to the common tail; LOG_ACTIVE goes to the
common tail directly.  The Bool component tells whether this tick emitted
its statistics log lines. -/
def AudioDeviceBuffer.LogStats (s : AudioDeviceBuffer) (now : Nat)
    (state : LogState) : AudioDeviceBuffer × Bool :=
  match state with
  | LogState.LOG_STOP => (s, false)
  | LogState.LOG_START =>
    AudioDeviceBuffer.LogStatsCommon
      { s with num_stat_reports := 0, last_timer_task_time := now } now
  | LogState.LOG_ACTIVE => AudioDeviceBuffer.LogStatsCommon s now

/-- The timer chain the source builds through StartPeriodicLogging and
PostDelayedTask: the LOG_START task runs at time 0 and each subsequent
LOG_ACTIVE task runs one kTimerIntervalInMilliseconds later.  The function
returns the state after the start tick plus k active ticks together with the
number of ticks that emitted their log lines. -/
def runReporterTicks (s : AudioDeviceBuffer) : Nat → AudioDeviceBuffer × Nat
  | 0 =>
    let p := AudioDeviceBuffer.LogStats s 0 LogState.LOG_START
    (p.1, if p.2 then 1 else 0)
  | k + 1 =>
    let p := runReporterTicks s k
    let q := AudioDeviceBuffer.LogStats p.1
      (kTimerIntervalInMilliseconds * (k + 1)) LogState.LOG_ACTIVE
    (q.1, p.2 + if q.2 then 1 else 0)

/-- Number of log emissions produced while the reporter runs over the time
window from 0 (inclusive, the LOG_START tick) to T (exclusive): the ticks
that fire are those at times 0, 10000, ..., up to the last multiple of the
interval below T. -/
def reporterEmissions (s : AudioDeviceBuffer) (T : Nat) : Nat :=
  (runReporterTicks s (T / kTimerIntervalInMilliseconds - 1)).2

/-- Folding a list of SetRecordedBuffer deliveries, each a pair of the
source samples and the frame count, over a state. -/
def foldRecorded (s : AudioDeviceBuffer) (bufs : List (List Int × Nat)) :
    AudioDeviceBuffer :=
  bufs.foldl (fun t b => t.SetRecordedBuffer b.1 b.2) s

/-- Folding a list of RequestPlayoutData requests (frame counts) over a
state, keeping only the state. -/
def foldPlayoutRequests (s : AudioDeviceBuffer) (reqs : List Nat) :
    AudioDeviceBuffer :=
  reqs.foldl (fun t n => (t.RequestPlayoutData n).1) s

/-- One complete recording session: StartRecording at time t_start, the
given sequence of SetRecordedBuffer deliveries, StopRecording at time
t_stop.  The first component is the telemetry emission of the stop call. -/
def runRecSession (s : AudioDeviceBuffer) (t_start : Nat)
    (bufs : List (List Int × Nat)) (t_stop : Nat) :
    Option Bool × AudioDeviceBuffer :=
  AudioDeviceBuffer.StopRecording (foldRecorded (s.StartRecording t_start) bufs) t_stop

/-- The peak value SetRecordedBuffer observes when it samples a delivery b
under the given channel count: the maximum absolute value over the copied
num_samples * channels samples. -/
def observedPeak (channels : Nat) (b : List Int × Nat) : Nat :=
  WebRtcSpl_MaxAbsValueW16 (bufferSetData b.1 (b.2 * channels))

/-- Whether every delivery that the wrapping 50-call counter selects for a
peak computation carries only zero samples, starting from counter value c. -/
def obsZeroFrom (channels : Nat) : Nat → List (List Int × Nat) → Bool
  | _, [] => true
  | c, b :: rest =>
    if 50 ≤ c + 1 then
      decide (observedPeak channels b = 0) && obsZeroFrom channels 0 rest
    else obsZeroFrom channels (c + 1) rest

/-- A transport that reports success everywhere and produces no playout
data; used to instantiate theorems at concrete inputs. -/
def nullTransport : AudioTransport where
  recordedDataIsAvailable := fun _ _ _ _ _ _ _ _ _ => (0, 0)
  needMorePlayData := fun _ _ _ _ => ([], 0, 0)

/-! ### Basic lemmas about the buffer helpers -/

lemma bufferSetData_length (data : List Int) (n : Nat) :
    (bufferSetData data n).length = n := by
  simp [bufferSetData]
  omega

lemma bufferSetSize_length (l : List Int) (n : Nat) :
    (bufferSetSize l n).length = n := by
  simp [bufferSetSize]
  omega

lemma bufferSetSize_self (l : List Int) :
    bufferSetSize l l.length = l := by
  simp [bufferSetSize]

lemma writeInto_length (buf data : List Int) :
    (writeInto buf data).length = buf.length := by
  simp [writeInto]
  omega

lemma bufferSetData_take (data : List Int) (n : Nat) :
    (bufferSetData data n).take n = bufferSetData data n := by
  have h := bufferSetData_length data n
  calc (bufferSetData data n).take n
      = (bufferSetData data n).take (bufferSetData data n).length := by rw [h]
    _ = bufferSetData data n := List.take_length _

/-! ### Field-evolution lemmas for SetRecordedBuffer -/

lemma SetRecordedBuffer_recording (s : AudioDeviceBuffer) (a : List Int) (n : Nat) :
    (s.SetRecordedBuffer a n).recording = s.recording := by
  by_cases h : 50 <= s.rec_stat_count + 1 <;>
    simp [AudioDeviceBuffer.SetRecordedBuffer, AudioDeviceBuffer.UpdateRecStats, h]

lemma SetRecordedBuffer_rec_start_time (s : AudioDeviceBuffer) (a : List Int) (n : Nat) :
    (s.SetRecordedBuffer a n).rec_start_time = s.rec_start_time := by
  by_cases h : 50 <= s.rec_stat_count + 1 <;>
    simp [AudioDeviceBuffer.SetRecordedBuffer, AudioDeviceBuffer.UpdateRecStats, h]

lemma SetRecordedBuffer_rec_channels (s : AudioDeviceBuffer) (a : List Int) (n : Nat) :
    (s.SetRecordedBuffer a n).rec_channels = s.rec_channels := by
  by_cases h : 50 <= s.rec_stat_count + 1 <;>
    simp [AudioDeviceBuffer.SetRecordedBuffer, AudioDeviceBuffer.UpdateRecStats, h]

lemma SetRecordedBuffer_transport (s : AudioDeviceBuffer) (a : List Int) (n : Nat) :
    (s.SetRecordedBuffer a n).audio_transport_cb = s.audio_transport_cb := by
  by_cases h : 50 <= s.rec_stat_count + 1 <;>
    simp [AudioDeviceBuffer.SetRecordedBuffer, AudioDeviceBuffer.UpdateRecStats, h]

lemma SetRecordedBuffer_rec_buffer (s : AudioDeviceBuffer) (a : List Int) (n : Nat) :
    (s.SetRecordedBuffer a n).rec_buffer = bufferSetData a (n * s.rec_channels) := by
  by_cases h : 50 <= s.rec_stat_count + 1 <;>
    simp [AudioDeviceBuffer.SetRecordedBuffer, AudioDeviceBuffer.UpdateRecStats, h]

lemma SetRecordedBuffer_rec_stat_count (s : AudioDeviceBuffer) (a : List Int) (n : Nat) :
    (s.SetRecordedBuffer a n).rec_stat_count =
      if 50 ≤ s.rec_stat_count + 1 then 0 else s.rec_stat_count + 1 := by
  by_cases h : 50 <= s.rec_stat_count + 1 <;>
    simp [AudioDeviceBuffer.SetRecordedBuffer, AudioDeviceBuffer.UpdateRecStats, h]

lemma SetRecordedBuffer_rec_peaks (s : AudioDeviceBuffer) (a : List Int) (n : Nat) :
    (s.SetRecordedBuffer a n).rec_peaks =
      if 50 ≤ s.rec_stat_count + 1 then
        s.rec_peaks ++ [observedPeak s.rec_channels (a, n)]
      else s.rec_peaks := by
  by_cases h : 50 <= s.rec_stat_count + 1 <;>
    simp [AudioDeviceBuffer.SetRecordedBuffer, AudioDeviceBuffer.UpdateRecStats, h,
          observedPeak, bufferSetData_take]

lemma SetRecordedBuffer_rec_callbacks (s : AudioDeviceBuffer) (a : List Int) (n : Nat) :
    (s.SetRecordedBuffer a n).rec_callbacks = s.rec_callbacks + 1 := by
  by_cases h : 50 <= s.rec_stat_count + 1 <;>
    simp [AudioDeviceBuffer.SetRecordedBuffer, AudioDeviceBuffer.UpdateRecStats, h]

lemma SetRecordedBuffer_rec_samples (s : AudioDeviceBuffer) (a : List Int) (n : Nat) :
    (s.SetRecordedBuffer a n).rec_samples = s.rec_samples + n := by
  by_cases h : 50 <= s.rec_stat_count + 1 <;>
    simp [AudioDeviceBuffer.SetRecordedBuffer, AudioDeviceBuffer.UpdateRecStats, h]

lemma SetRecordedBuffer_flag (s : AudioDeviceBuffer) (a : List Int) (n : Nat) :
    (s.SetRecordedBuffer a n).only_silence_recorded =
      if 50 ≤ s.rec_stat_count + 1 then
        (s.only_silence_recorded && decide (observedPeak s.rec_channels (a, n) = 0))
      else s.only_silence_recorded := by
  by_cases h : 50 <= s.rec_stat_count + 1
  · by_cases hp : 0 < observedPeak s.rec_channels (a, n) <;>
      simp_all [AudioDeviceBuffer.SetRecordedBuffer, AudioDeviceBuffer.UpdateRecStats,
                observedPeak, bufferSetData_take, Nat.pos_iff_ne_zero]
  · simp [AudioDeviceBuffer.SetRecordedBuffer, AudioDeviceBuffer.UpdateRecStats, h]

/-! ### Fold lemmas for sequences of SetRecordedBuffer calls -/

lemma foldRecorded_recording (bufs : List (List Int × Nat)) :
    ∀ s : AudioDeviceBuffer, (foldRecorded s bufs).recording = s.recording := by
  induction bufs with
  | nil => intro s; rfl
  | cons b rest ih =>
    intro s
    show (foldRecorded (s.SetRecordedBuffer b.1 b.2) rest).recording = s.recording
    rw [ih, SetRecordedBuffer_recording]

lemma foldRecorded_rec_start_time (bufs : List (List Int × Nat)) :
    ∀ s : AudioDeviceBuffer, (foldRecorded s bufs).rec_start_time = s.rec_start_time := by
  induction bufs with
  | nil => intro s; rfl
  | cons b rest ih =>
    intro s
    show (foldRecorded (s.SetRecordedBuffer b.1 b.2) rest).rec_start_time = s.rec_start_time
    rw [ih, SetRecordedBuffer_rec_start_time]

lemma foldRecorded_rec_channels (bufs : List (List Int × Nat)) :
    ∀ s : AudioDeviceBuffer, (foldRecorded s bufs).rec_channels = s.rec_channels := by
  induction bufs with
  | nil => intro s; rfl
  | cons b rest ih =>
    intro s
    show (foldRecorded (s.SetRecordedBuffer b.1 b.2) rest).rec_channels = s.rec_channels
    rw [ih, SetRecordedBuffer_rec_channels]

lemma foldRecorded_rec_callbacks (bufs : List (List Int × Nat)) :
    ∀ s : AudioDeviceBuffer, (foldRecorded s bufs).rec_callbacks = s.rec_callbacks + bufs.length := by
  induction bufs with
  | nil => intro s; rfl
  | cons b rest ih =>
    intro s
    show (foldRecorded (s.SetRecordedBuffer b.1 b.2) rest).rec_callbacks = _
    rw [ih, SetRecordedBuffer_rec_callbacks]
    simp
    omega

lemma foldRecorded_rec_samples (bufs : List (List Int × Nat)) :
    ∀ s : AudioDeviceBuffer,
      (foldRecorded s bufs).rec_samples = s.rec_samples + (bufs.map Prod.snd).sum := by
  induction bufs with
  | nil => intro s; simp [foldRecorded]
  | cons b rest ih =>
    intro s
    show (foldRecorded (s.SetRecordedBuffer b.1 b.2) rest).rec_samples = _
    rw [ih, SetRecordedBuffer_rec_samples]
    simp
    omega

lemma foldRecorded_rec_stat_count (bufs : List (List Int × Nat)) :
    ∀ s : AudioDeviceBuffer, s.rec_stat_count < 50 →
      (foldRecorded s bufs).rec_stat_count = (s.rec_stat_count + bufs.length) % 50 := by
  induction bufs with
  | nil => intro s h; simp [foldRecorded]; omega
  | cons b rest ih =>
    intro s h
    show (foldRecorded (s.SetRecordedBuffer b.1 b.2) rest).rec_stat_count = _
    have hc := SetRecordedBuffer_rec_stat_count s b.1 b.2
    by_cases h50 : 50 ≤ s.rec_stat_count + 1
    · rw [if_pos h50] at hc
      rw [ih _ (by omega), hc]
      simp only [List.length_cons]
      omega
    · rw [if_neg h50] at hc
      rw [ih _ (by omega), hc]
      simp only [List.length_cons]
      omega

lemma foldRecorded_rec_peaks_length (bufs : List (List Int × Nat)) :
    ∀ s : AudioDeviceBuffer, s.rec_stat_count < 50 →
      (foldRecorded s bufs).rec_peaks.length =
        s.rec_peaks.length + (s.rec_stat_count + bufs.length) / 50 := by
  induction bufs with
  | nil => intro s h; simp [foldRecorded]; omega
  | cons b rest ih =>
    intro s h
    show (foldRecorded (s.SetRecordedBuffer b.1 b.2) rest).rec_peaks.length = _
    have hc := SetRecordedBuffer_rec_stat_count s b.1 b.2
    have hp := SetRecordedBuffer_rec_peaks s b.1 b.2
    by_cases h50 : 50 ≤ s.rec_stat_count + 1
    · rw [if_pos h50] at hc hp
      rw [ih _ (by omega), hc, hp]
      simp
      omega
    · rw [if_neg h50] at hc hp
      rw [ih _ (by omega), hc, hp]
      simp only [List.length_cons]
      omega

lemma foldRecorded_flag (bufs : List (List Int × Nat)) :
    ∀ s : AudioDeviceBuffer, s.rec_stat_count < 50 →
      (foldRecorded s bufs).only_silence_recorded =
        (s.only_silence_recorded && obsZeroFrom s.rec_channels s.rec_stat_count bufs) := by
  induction bufs with
  | nil => intro s h; simp [foldRecorded, obsZeroFrom]
  | cons b rest ih =>
    intro s h
    show (foldRecorded (s.SetRecordedBuffer b.1 b.2) rest).only_silence_recorded = _
    have hc := SetRecordedBuffer_rec_stat_count s b.1 b.2
    have hf := SetRecordedBuffer_flag s b.1 b.2
    have hch := SetRecordedBuffer_rec_channels s b.1 b.2
    by_cases h50 : 50 ≤ s.rec_stat_count + 1
    · rw [if_pos h50] at hc hf
      rw [ih _ (by omega), hc, hf, hch]
      have h49 : s.rec_stat_count = 49 := by omega
      simp [obsZeroFrom, h49, Bool.and_assoc]
    · rw [if_neg h50] at hc hf
      rw [ih _ (by omega), hc, hf, hch]
      have h49 : ¬49 ≤ s.rec_stat_count := by omega
      simp [obsZeroFrom, h49]

/-- The wrapping counter starting at c selects exactly the calls at 0-based
position i with (c + i + 1) divisible by 50. -/
lemma obsZeroFrom_eq_true_iff (ch : Nat) (bufs : List (List Int × Nat)) :
    ∀ c : Nat, c < 50 →
      (obsZeroFrom ch c bufs = true ↔
        ∀ i, i < bufs.length → (c + i + 1) % 50 = 0 →
          observedPeak ch (bufs.getD i ([], 0)) = 0) := by
  induction bufs with
  | nil => intro c h; simp [obsZeroFrom]
  | cons b rest ih =>
    intro c h
    by_cases h50 : 50 ≤ c + 1
    · have h49 : c = 49 := by omega
      subst h49
      simp only [obsZeroFrom, if_pos h50, Bool.and_eq_true, decide_eq_true_eq]
      rw [ih 0 (by omega)]
      constructor
      · rintro ⟨hb, hrest⟩ i hi hm
        cases i with
        | zero => simpa using hb
        | succ j =>
          have hj : j < rest.length := by simpa using hi
          have hm2 : (0 + j + 1) % 50 = 0 := by omega
          simpa using hrest j hj hm2
      · intro hall
        refine ⟨?_, ?_⟩
        · have := hall 0 (by simp) (by norm_num)
          simpa using this
        · intro j hj hm
          have := hall (j + 1) (by simpa using Nat.succ_lt_succ hj) (by omega)
          simpa using this
    · simp only [obsZeroFrom, if_neg h50]
      rw [ih (c + 1) (by omega)]
      constructor
      · intro hrest i hi hm
        cases i with
        | zero => omega
        | succ j =>
          have hj : j < rest.length := by simpa using hi
          have hm2 : (c + 1 + j + 1) % 50 = 0 := by omega
          simpa using hrest j hj hm2
      · intro hall j hj hm
        have := hall (j + 1) (by simpa using Nat.succ_lt_succ hj) (by omega)
        simpa using this

/-! ### Field-evolution lemmas for RequestPlayoutData -/

lemma RequestPlayoutData_transport (s : AudioDeviceBuffer) (n : Nat) :
    (s.RequestPlayoutData n).1.audio_transport_cb = s.audio_transport_cb := by
  unfold AudioDeviceBuffer.RequestPlayoutData
  cases htr : s.audio_transport_cb with
  | none => rfl
  | some cb =>
    by_cases hst : 50 <= s.play_stat_count + 1 <;>
      simp [AudioDeviceBuffer.UpdatePlayStats, hst]

lemma RequestPlayoutData_play_channels (s : AudioDeviceBuffer) (n : Nat) :
    (s.RequestPlayoutData n).1.play_channels = s.play_channels := by
  unfold AudioDeviceBuffer.RequestPlayoutData
  cases htr : s.audio_transport_cb with
  | none => rfl
  | some cb =>
    by_cases hst : 50 <= s.play_stat_count + 1 <;>
      simp [AudioDeviceBuffer.UpdatePlayStats, hst]

lemma RequestPlayoutData_play_buffer_length (s : AudioDeviceBuffer) (n : Nat) :
    (s.RequestPlayoutData n).1.play_buffer.length = n * s.play_channels := by
  unfold AudioDeviceBuffer.RequestPlayoutData
  have hlen : (if 2 * s.play_buffer.length ≠ n * (s.play_channels * 2) then
      bufferSetSize s.play_buffer (n * s.play_channels)
    else s.play_buffer).length = n * s.play_channels := by
    by_cases hsz : 2 * s.play_buffer.length = n * (s.play_channels * 2)
    · have hsz2 : s.play_buffer.length = n * s.play_channels := by
        have h2 : 2 * s.play_buffer.length = 2 * (n * s.play_channels) := by
          rw [hsz]; ring
        omega
      simp only [hsz2]
      rw [if_neg (by push_neg; ring)]
      exact hsz2
    · simp [hsz, bufferSetSize_length]
  cases htr : s.audio_transport_cb with
  | none => simpa using hlen
  | some cb =>
    by_cases hst : 50 <= s.play_stat_count + 1 <;>
      simpa [AudioDeviceBuffer.UpdatePlayStats, hst, writeInto_length] using hlen

lemma RequestPlayoutData_play_stat_count (s : AudioDeviceBuffer) (cb : AudioTransport)
    (n : Nat) (htr : s.audio_transport_cb = some cb) :
    (s.RequestPlayoutData n).1.play_stat_count =
      if 50 ≤ s.play_stat_count + 1 then 0 else s.play_stat_count + 1 := by
  unfold AudioDeviceBuffer.RequestPlayoutData
  rw [htr]
  by_cases hst : 50 <= s.play_stat_count + 1 <;>
    simp [AudioDeviceBuffer.UpdatePlayStats, hst]

lemma RequestPlayoutData_play_peaks_length (s : AudioDeviceBuffer) (cb : AudioTransport)
    (n : Nat) (htr : s.audio_transport_cb = some cb) :
    (s.RequestPlayoutData n).1.play_peaks.length =
      if 50 ≤ s.play_stat_count + 1 then s.play_peaks.length + 1
      else s.play_peaks.length := by
  unfold AudioDeviceBuffer.RequestPlayoutData
  rw [htr]
  by_cases hst : 50 <= s.play_stat_count + 1 <;>
    simp [AudioDeviceBuffer.UpdatePlayStats, hst]

lemma RequestPlayoutData_play_callbacks (s : AudioDeviceBuffer) (cb : AudioTransport)
    (n : Nat) (htr : s.audio_transport_cb = some cb) :
    (s.RequestPlayoutData n).1.play_callbacks = s.play_callbacks + 1 := by
  unfold AudioDeviceBuffer.RequestPlayoutData
  rw [htr]
  by_cases hst : 50 <= s.play_stat_count + 1 <;>
    simp [AudioDeviceBuffer.UpdatePlayStats, hst]

lemma RequestPlayoutData_none (s : AudioDeviceBuffer) (n : Nat)
    (htr : s.audio_transport_cb = none) :
    s.RequestPlayoutData n =
      ({ s with play_buffer :=
          if 2 * s.play_buffer.length ≠ n * (s.play_channels * 2) then
            bufferSetSize s.play_buffer (n * s.play_channels)
          else s.play_buffer }, 0) := by
  unfold AudioDeviceBuffer.RequestPlayoutData
  rw [htr]

/-! ### Fold lemmas for sequences of RequestPlayoutData calls -/

lemma foldPlayoutRequests_counts (reqs : List Nat) :
    ∀ (s : AudioDeviceBuffer) (cb : AudioTransport),
      s.audio_transport_cb = some cb → s.play_stat_count < 50 →
      (foldPlayoutRequests s reqs).play_stat_count = (s.play_stat_count + reqs.length) % 50
      ∧ (foldPlayoutRequests s reqs).play_peaks.length =
          s.play_peaks.length + (s.play_stat_count + reqs.length) / 50
      ∧ (foldPlayoutRequests s reqs).play_callbacks = s.play_callbacks + reqs.length := by
  induction reqs with
  | nil => intro s cb htr h; refine ⟨by simp [foldPlayoutRequests]; omega, by simp [foldPlayoutRequests]; omega, by simp [foldPlayoutRequests]⟩
  | cons n rest ih =>
    intro s cb htr h
    have step : foldPlayoutRequests s (n :: rest) =
        foldPlayoutRequests (s.RequestPlayoutData n).1 rest := rfl
    have htr2 : (s.RequestPlayoutData n).1.audio_transport_cb = some cb := by
      rw [RequestPlayoutData_transport, htr]
    have hc := RequestPlayoutData_play_stat_count s cb n htr
    have hp := RequestPlayoutData_play_peaks_length s cb n htr
    have hcb := RequestPlayoutData_play_callbacks s cb n htr
    by_cases h50 : 50 ≤ s.play_stat_count + 1
    · rw [if_pos h50] at hc hp
      obtain ⟨i1, i2, i3⟩ := ih (s.RequestPlayoutData n).1 cb htr2 (by omega)
      refine ⟨?_, ?_, ?_⟩
      · rw [step, i1, hc]; simp only [List.length_cons]; omega
      · rw [step, i2, hc, hp]; simp only [List.length_cons]; omega
      · rw [step, i3, hcb]; simp only [List.length_cons]; omega
    · rw [if_neg h50] at hc hp
      obtain ⟨i1, i2, i3⟩ := ih (s.RequestPlayoutData n).1 cb htr2 (by omega)
      refine ⟨?_, ?_, ?_⟩
      · rw [step, i1, hc]; simp only [List.length_cons]; omega
      · rw [step, i2, hc, hp]; simp only [List.length_cons]; omega
      · rw [step, i3, hcb]; simp only [List.length_cons]; omega

/-! ### Constant values and LogStats projections -/

lemma kTimerIntervalInMilliseconds_eq : kTimerIntervalInMilliseconds = 10000 := by
  norm_num [kTimerIntervalInMilliseconds, kTimerIntervalInSeconds]

lemma kMinValidCallTimeTimeInMilliseconds_eq :
    kMinValidCallTimeTimeInMilliseconds = 10000 := by
  norm_num [kMinValidCallTimeTimeInMilliseconds, kMinValidCallTimeTimeInSeconds]

lemma LogStatsCommon_num (s : AudioDeviceBuffer) (now : Nat) :
    (s.LogStatsCommon now).1.num_stat_reports = s.num_stat_reports + 1 := rfl

lemma LogStatsCommon_last (s : AudioDeviceBuffer) (now : Nat) :
    (s.LogStatsCommon now).1.last_timer_task_time = now := rfl

lemma LogStatsCommon_emitted (s : AudioDeviceBuffer) (now : Nat) :
    (s.LogStatsCommon now).2 =
      decide (1 < s.num_stat_reports + 1 ∧ s.last_timer_task_time < now) := rfl

lemma LogStats_active (s : AudioDeviceBuffer) (now : Nat) :
    s.LogStats now LogState.LOG_ACTIVE = s.LogStatsCommon now := rfl

lemma LogStats_start (s : AudioDeviceBuffer) (now : Nat) :
    s.LogStats now LogState.LOG_START =
      AudioDeviceBuffer.LogStatsCommon
        { s with num_stat_reports := 0, last_timer_task_time := now } now := rfl

/-- After the start tick and k active ticks: every active tick emitted (the
start tick did not), the report counter reads k + 1 and the last tick time
is the k-th interval boundary. -/
lemma runReporterTicks_invariants (s : AudioDeviceBuffer) :
    ∀ k : Nat, (runReporterTicks s k).2 = k
      ∧ (runReporterTicks s k).1.num_stat_reports = k + 1
      ∧ (runReporterTicks s k).1.last_timer_task_time = kTimerIntervalInMilliseconds * k := by
  intro k
  induction k with
  | zero =>
    refine ⟨?_, ?_, ?_⟩ <;>
      simp [runReporterTicks, LogStats_start, AudioDeviceBuffer.LogStatsCommon]
  | succ k ih =>
    obtain ⟨i1, i2, i3⟩ := ih
    have hI := kTimerIntervalInMilliseconds_eq
    have hemit : (AudioDeviceBuffer.LogStats (runReporterTicks s k).1
        (kTimerIntervalInMilliseconds * (k + 1)) LogState.LOG_ACTIVE).2 = true := by
      rw [LogStats_active, LogStatsCommon_emitted, i2, i3]
      simp only [decide_eq_true_eq]
      constructor
      · omega
      · rw [hI]; omega
    have hnum : (AudioDeviceBuffer.LogStats (runReporterTicks s k).1
        (kTimerIntervalInMilliseconds * (k + 1)) LogState.LOG_ACTIVE).1.num_stat_reports
        = k + 1 + 1 := by
      rw [LogStats_active, LogStatsCommon_num, i2]
    have hlast : (AudioDeviceBuffer.LogStats (runReporterTicks s k).1
        (kTimerIntervalInMilliseconds * (k + 1)) LogState.LOG_ACTIVE).1.last_timer_task_time
        = kTimerIntervalInMilliseconds * (k + 1) := by
      rw [LogStats_active, LogStatsCommon_last]
    refine ⟨?_, ?_, ?_⟩
    · show (runReporterTicks s k).2 +
        (if (AudioDeviceBuffer.LogStats (runReporterTicks s k).1
          (kTimerIntervalInMilliseconds * (k + 1)) LogState.LOG_ACTIVE).2 then 1 else 0) = k + 1
      rw [i1, hemit]
      simp
    · exact hnum
    · exact hlast

/-! ### Start/StopRecording characterizations -/

lemma StartRecording_recording (s : AudioDeviceBuffer) (t : Nat) (h : s.recording = false) :
    (s.StartRecording t).recording = true := by
  simp [AudioDeviceBuffer.StartRecording, AudioDeviceBuffer.ResetRecStats, h]

lemma StartRecording_rec_start_time (s : AudioDeviceBuffer) (t : Nat) (h : s.recording = false) :
    (s.StartRecording t).rec_start_time = t := by
  simp [AudioDeviceBuffer.StartRecording, AudioDeviceBuffer.ResetRecStats, h]

lemma StartRecording_flag (s : AudioDeviceBuffer) (t : Nat) (h : s.recording = false) :
    (s.StartRecording t).only_silence_recorded = true := by
  simp [AudioDeviceBuffer.StartRecording, AudioDeviceBuffer.ResetRecStats, h]

lemma StartRecording_rec_stat_count (s : AudioDeviceBuffer) (t : Nat) (h : s.recording = false) :
    (s.StartRecording t).rec_stat_count = s.rec_stat_count := by
  simp [AudioDeviceBuffer.StartRecording, AudioDeviceBuffer.ResetRecStats, h]

lemma StartRecording_rec_channels (s : AudioDeviceBuffer) (t : Nat) (h : s.recording = false) :
    (s.StartRecording t).rec_channels = s.rec_channels := by
  simp [AudioDeviceBuffer.StartRecording, AudioDeviceBuffer.ResetRecStats, h]

lemma StartRecording_rec_callbacks (s : AudioDeviceBuffer) (t : Nat) (h : s.recording = false) :
    (s.StartRecording t).rec_callbacks = 0 := by
  simp [AudioDeviceBuffer.StartRecording, AudioDeviceBuffer.ResetRecStats, h]

lemma StartRecording_rec_peaks (s : AudioDeviceBuffer) (t : Nat) (h : s.recording = false) :
    (s.StartRecording t).rec_peaks = s.rec_peaks := by
  simp [AudioDeviceBuffer.StartRecording, AudioDeviceBuffer.ResetRecStats, h]

lemma StopRecording_of_recording (s : AudioDeviceBuffer) (now : Nat) (h : s.recording = true) :
    s.StopRecording now =
      (if kMinValidCallTimeTimeInMilliseconds < now - s.rec_start_time then
         some s.only_silence_recorded else none,
       { s with recording := false }) := by
  by_cases ht : kMinValidCallTimeTimeInMilliseconds < now - s.rec_start_time <;>
    simp [AudioDeviceBuffer.StopRecording, h, ht]

lemma two_mul_div_bytes (N c : Nat) (hc : 0 < c) : 2 * (N * c) / (c * 2) = N := by
  rw [show 2 * (N * c) = N * (c * 2) by ring]
  exact Nat.mul_div_cancel N (by omega)

/-! ### Claim theorems -/

/-- C9, counterexample to the claim as stated: even for the both-channels
sentinel, SetRecordingChannel returns -1 (failure), not success. -/
theorem C9_counterexample :
    (AudioDeviceBuffer.init.SetRecordingChannel ChannelType.kChannelBoth).1 = -1 ∧
    (AudioDeviceBuffer.init.SetRecordingChannel ChannelType.kChannelBoth).2 =
      AudioDeviceBuffer.init :=
  ⟨rfl, rfl⟩

/-- C9 (amended): SetRecordingChannel is a state-preserving no-op that
returns failure (-1) for every channel argument; the both-channels sentinel
is merely the only argument the debug assertion of the function permits. -/
theorem C9_set_recording_channel (s : AudioDeviceBuffer) (ch : ChannelType) :
    s.SetRecordingChannel ch = (-1, s) ∧
    (SetRecordingChannelAssertionHolds ch ↔ ch = ChannelType.kChannelBoth) :=
  ⟨rfl, Iff.rfl⟩

/-- C6: RegisterAudioCallback returns the error value -1 exactly when
recording or playout is active; on that error the stored callback (and the
whole state) is unchanged, and otherwise - including a null callback - the
stored transport callback is replaced by the argument and 0 is returned. -/
theorem C6_register_audio_callback (s : AudioDeviceBuffer) (cb : Option AudioTransport) :
    ((s.RegisterAudioCallback cb).1 = -1 ↔ (s.playing || s.recording) = true) ∧
    ((s.playing || s.recording) = true → (s.RegisterAudioCallback cb).2 = s) ∧
    ((s.playing || s.recording) = false →
      (s.RegisterAudioCallback cb).1 = 0 ∧
      (s.RegisterAudioCallback cb).2 = { s with audio_transport_cb := cb }) := by
  by_cases h : (s.playing || s.recording) = true
  · simp [AudioDeviceBuffer.RegisterAudioCallback, h]
  · have h2 : (s.playing || s.recording) = false := by
      cases hb : (s.playing || s.recording) <;> simp_all
    simp [AudioDeviceBuffer.RegisterAudioCallback, h2]

/-- C6 witness: at a state with playout active registration fails and leaves
the state unchanged; at the freshly constructed state registration of a null
callback succeeds. -/
theorem C6_witness :
    (({ AudioDeviceBuffer.init with playing := true }).RegisterAudioCallback none).2 =
      { AudioDeviceBuffer.init with playing := true } ∧
    (AudioDeviceBuffer.init.RegisterAudioCallback none).1 = 0 :=
  ⟨(C6_register_audio_callback { AudioDeviceBuffer.init with playing := true } none).2.1 rfl,
   ((C6_register_audio_callback AudioDeviceBuffer.init none).2.2 rfl).1⟩

/-- C5: with a registered transport and a positive channel count,
SetRecordedBuffer with frame count N followed by DeliverRecordedData invokes
the transport recorded-data contract with a sample count of exactly N. -/
theorem C5_deliver_sample_count (s : AudioDeviceBuffer) (cb : AudioTransport)
    (audio : List Int) (N : Nat) (hN : 0 < N) (hc : 0 < s.rec_channels)
    (htr : s.audio_transport_cb = some cb) :
    ((s.SetRecordedBuffer audio N).DeliverRecordedData).1 = some N := by
  have hbuf := SetRecordedBuffer_rec_buffer s audio N
  have hch := SetRecordedBuffer_rec_channels s audio N
  have htr2 : (s.SetRecordedBuffer audio N).audio_transport_cb = some cb := by
    rw [SetRecordedBuffer_transport, htr]
  unfold AudioDeviceBuffer.DeliverRecordedData
  rw [htr2]
  have harith : 2 * (s.SetRecordedBuffer audio N).rec_buffer.length /
      ((s.SetRecordedBuffer audio N).rec_channels * 2) = N := by
    rw [hbuf, hch, bufferSetData_length]
    exact two_mul_div_bytes N s.rec_channels hc
  split
  · next x heq => simp at heq
  · next x cb2 heq => simp [harith, apply_ite]

/-- C5 witness at one mono frame with a registered null transport. -/
theorem C5_witness :
    ((((AudioDeviceBuffer.init.SetRecordingChannels 1).2.RegisterAudioCallback
        (some nullTransport)).2.SetRecordedBuffer [3] 1).DeliverRecordedData).1 = some 1 :=
  C5_deliver_sample_count _ nullTransport [3] 1 (by decide) (by decide) rfl

/-- C7: a RequestPlayoutData call without a registered transport returns 0
frames produced and its only effect is resizing the playout buffer to
frameCount x channels x 2 bytes. -/
theorem C7_request_playout_no_transport (s : AudioDeviceBuffer) (N : Nat)
    (htr : s.audio_transport_cb = none) :
    s.RequestPlayoutData N =
      ({ s with play_buffer := bufferSetSize s.play_buffer (N * s.play_channels) }, 0) ∧
    2 * (s.RequestPlayoutData N).1.play_buffer.length = N * s.play_channels * 2 := by
  have hbuf : (if 2 * s.play_buffer.length ≠ N * (s.play_channels * 2) then
      bufferSetSize s.play_buffer (N * s.play_channels) else s.play_buffer)
      = bufferSetSize s.play_buffer (N * s.play_channels) := by
    by_cases hsz : 2 * s.play_buffer.length = N * (s.play_channels * 2)
    · have hlen : s.play_buffer.length = N * s.play_channels := by
        have h2 : 2 * s.play_buffer.length = 2 * (N * s.play_channels) := by
          rw [hsz]; ring
        omega
      rw [if_neg (not_not_intro hsz), ← hlen, bufferSetSize_self]
    · rw [if_pos hsz]
  constructor
  · rw [RequestPlayoutData_none s N htr, hbuf]
  · rw [RequestPlayoutData_play_buffer_length]; ring

/-- C7 witness: the concrete 480-frame request on the fresh state. -/
theorem C7_witness :
    AudioDeviceBuffer.init.RequestPlayoutData 480 =
      ({ AudioDeviceBuffer.init with
          play_buffer := bufferSetSize AudioDeviceBuffer.init.play_buffer
            (480 * AudioDeviceBuffer.init.play_channels) }, 0) ∧
    2 * (AudioDeviceBuffer.init.RequestPlayoutData 480).1.play_buffer.length =
      480 * AudioDeviceBuffer.init.play_channels * 2 :=
  C7_request_playout_no_transport AudioDeviceBuffer.init 480 rfl

/-- C10: after RequestPlayoutData with frame count N (positive channels,
any registered transport, whatever frame count the transport reports),
GetPlayoutData copies out the whole playout buffer and returns frame count
N, independent of the frames-produced value RequestPlayoutData returned. -/
theorem C10_get_playout_data (s : AudioDeviceBuffer) (cb : AudioTransport) (N : Nat)
    (htr : s.audio_transport_cb = some cb) (hc : 0 < s.play_channels) (hN : 0 < N) :
    (s.RequestPlayoutData N).1.GetPlayoutData =
      (N, (s.RequestPlayoutData N).1.play_buffer) := by
  unfold AudioDeviceBuffer.GetPlayoutData
  rw [RequestPlayoutData_play_buffer_length, RequestPlayoutData_play_channels]
  rw [two_mul_div_bytes N s.play_channels hc]

/-- C10 witness with a transport that produces zero frames: GetPlayoutData
still reports the requested 480 frames. -/
theorem C10_witness :
    ((((AudioDeviceBuffer.init.SetPlayoutChannels 1).2.RegisterAudioCallback
        (some nullTransport)).2.RequestPlayoutData 480).1.GetPlayoutData) =
      (480, (((AudioDeviceBuffer.init.SetPlayoutChannels 1).2.RegisterAudioCallback
        (some nullTransport)).2.RequestPlayoutData 480).1.play_buffer) :=
  C10_get_playout_data _ nullTransport 480 rfl (by decide) (by decide)

/-- C1, counterexample to the claim as stated: a session whose elapsed time
is exactly 10 seconds (10000 ms, hence at least 10 seconds) emits no
telemetry event, because the source compares with strictly-greater-than. -/
theorem C1_counterexample :
    kMinValidCallTimeTimeInMilliseconds ≤ 10000 - 0 ∧
    (runRecSession AudioDeviceBuffer.init 0 [] 10000).1 = none := by
  constructor
  · rw [kMinValidCallTimeTimeInMilliseconds_eq]
  · rfl

/-- C1 (amended): over any recording session, StopRecording emits the
silence telemetry event - exactly one event, carrying the Silence Flag
value - if and only if the elapsed time since StartRecording strictly
exceeds 10 seconds (10000 ms); a session of at most 10000 ms emits
nothing. -/
theorem C1_stop_recording_emission (s : AudioDeviceBuffer) (t_start t_stop : Nat)
    (bufs : List (List Int × Nat)) (hrec : s.recording = false)
    (hle : t_start ≤ t_stop) :
    (runRecSession s t_start bufs t_stop).1 =
      (if kMinValidCallTimeTimeInMilliseconds < t_stop - t_start then
        some (runRecSession s t_start bufs t_stop).2.only_silence_recorded
      else none) ∧
    ((runRecSession s t_start bufs t_stop).1.isSome ↔
      kMinValidCallTimeTimeInMilliseconds < t_stop - t_start) := by
  have hrec2 : (foldRecorded (s.StartRecording t_start) bufs).recording = true := by
    rw [foldRecorded_recording, StartRecording_recording s t_start hrec]
  have hstart : (foldRecorded (s.StartRecording t_start) bufs).rec_start_time = t_start := by
    rw [foldRecorded_rec_start_time, StartRecording_rec_start_time s t_start hrec]
  have hrun := StopRecording_of_recording
    (foldRecorded (s.StartRecording t_start) bufs) t_stop hrec2
  rw [hstart] at hrun
  unfold runRecSession
  rw [hrun]
  by_cases hc : kMinValidCallTimeTimeInMilliseconds < t_stop - t_start <;> simp [hc]

/-- C1 witness: an empty session of 10001 ms does emit, with the emitted
value equal to the Silence Flag at stop. -/
theorem C1_witness :
    (runRecSession AudioDeviceBuffer.init 0 [] 10001).1 =
      (if kMinValidCallTimeTimeInMilliseconds < 10001 - 0 then
        some (runRecSession AudioDeviceBuffer.init 0 [] 10001).2.only_silence_recorded
      else none) ∧
    ((runRecSession AudioDeviceBuffer.init 0 [] 10001).1.isSome ↔
      kMinValidCallTimeTimeInMilliseconds < 10001 - 0) :=
  C1_stop_recording_emission AudioDeviceBuffer.init 0 10001 [] rfl (by decide)

/-- C2, counterexample to the claim as stated: a 20-second mono session
delivering a single buffer whose sample 7 has non-zero magnitude still ends
with the Silence Flag true (and even emits the event with value true),
because only every 50th delivery is inspected. -/
theorem C2_counterexample :
    (runRecSession ((AudioDeviceBuffer.init.SetRecordingChannels 1).2) 0
        [([7], 1)] 20000).2.only_silence_recorded = true ∧
    (runRecSession ((AudioDeviceBuffer.init.SetRecordingChannels 1).2) 0
        [([7], 1)] 20000).1 = some true ∧
    observedPeak 1 ([7], 1) = 7 := by decide

/-- C2 (amended): for a session starting with the wrapping sampling counter
at zero (its value after construction), the Silence Flag is true at stop if
and only if every delivery the counter samples - the 50th, 100th, ... calls
of the session - carries only zero-magnitude samples; non-zero samples in
any other call are never observed, and StartRecording resets the flag to
true. -/
theorem C2_silence_flag (s : AudioDeviceBuffer) (t_start t_stop : Nat)
    (bufs : List (List Int × Nat)) (hrec : s.recording = false)
    (hcnt : s.rec_stat_count = 0) :
    ((runRecSession s t_start bufs t_stop).2.only_silence_recorded = true ↔
      ∀ i, i < bufs.length → (i + 1) % 50 = 0 →
        observedPeak s.rec_channels (bufs.getD i ([], 0)) = 0) ∧
    (s.StartRecording t_start).only_silence_recorded = true := by
  have hrec2 : (foldRecorded (s.StartRecording t_start) bufs).recording = true := by
    rw [foldRecorded_recording, StartRecording_recording s t_start hrec]
  have hflag : (runRecSession s t_start bufs t_stop).2.only_silence_recorded =
      (foldRecorded (s.StartRecording t_start) bufs).only_silence_recorded := by
    unfold runRecSession
    rw [StopRecording_of_recording _ _ hrec2]
  have hcv : (s.StartRecording t_start).rec_stat_count = 0 := by
    rw [StartRecording_rec_stat_count s t_start hrec, hcnt]
  have hfold := foldRecorded_flag bufs (s.StartRecording t_start) (by rw [hcv]; omega)
  rw [hcv, StartRecording_flag s t_start hrec,
      StartRecording_rec_channels s t_start hrec] at hfold
  constructor
  · rw [hflag, hfold]
    simp only [Bool.true_and]
    have hiff := obsZeroFrom_eq_true_iff s.rec_channels bufs 0 (by omega)
    simpa using hiff
  · exact StartRecording_flag s t_start hrec

/-- C2 witness at the empty session: the flag stays true and the sampled-
deliveries condition holds vacuously. -/
theorem C2_witness :
    ((runRecSession ((AudioDeviceBuffer.init.SetRecordingChannels 1).2) 0 []
        20000).2.only_silence_recorded = true ↔
      ∀ i, i < ([] : List (List Int × Nat)).length → (i + 1) % 50 = 0 →
        observedPeak ((AudioDeviceBuffer.init.SetRecordingChannels 1).2).rec_channels
          (([] : List (List Int × Nat)).getD i ([], 0)) = 0) ∧
    (((AudioDeviceBuffer.init.SetRecordingChannels 1).2).StartRecording
        0).only_silence_recorded = true :=
  C2_silence_flag ((AudioDeviceBuffer.init.SetRecordingChannels 1).2) 0 20000 [] rfl rfl

/-- C3, counterexample to the claim as stated: a single SetRecordedBuffer
call already performs one deferred stats update (the recording callback
counter, zeroed at start and incremented once by every posted update, reads
1), while the claimed every-50th schedule predicts floor(1/50) = 0 updates
for a 1-call sequence. -/
theorem C3_counterexample :
    (foldRecorded (AudioDeviceBuffer.init.StartRecording 0)
        [(List.replicate 160 (0 : Int), 160)]).rec_callbacks = 1 ∧
    (1 : Nat) / 50 = 0 := by decide

/-- C3 (amended): after a Start from a state whose wrapping sampling counter
is zero, the peak-magnitude computation runs exactly on the 50th, 100th, ...
calls - after any prefix of i calls exactly i / 50 computations have
happened - while the deferred stats update runs on every call: i updates
after i calls.  Symmetrically for RequestPlayoutData sequences with a
registered transport. -/
theorem C3_sampling_cadence (s : AudioDeviceBuffer) (t : Nat)
    (bufs : List (List Int × Nat)) (hrec : s.recording = false)
    (hcnt : s.rec_stat_count = 0)
    (p : AudioDeviceBuffer) (cb : AudioTransport) (reqs : List Nat)
    (hptr : p.audio_transport_cb = some cb) (hpcnt : p.play_stat_count = 0) :
    (∀ i, i ≤ bufs.length →
      (foldRecorded (s.StartRecording t) (bufs.take i)).rec_peaks.length =
        s.rec_peaks.length + i / 50 ∧
      (foldRecorded (s.StartRecording t) (bufs.take i)).rec_callbacks = i) ∧
    (∀ i, i ≤ reqs.length →
      (foldPlayoutRequests p (reqs.take i)).play_peaks.length =
        p.play_peaks.length + i / 50 ∧
      (foldPlayoutRequests p (reqs.take i)).play_callbacks = p.play_callbacks + i) := by
  constructor
  · intro i hi
    have hlen : (bufs.take i).length = i := by
      rw [List.length_take]; omega
    have hcv : (s.StartRecording t).rec_stat_count = 0 := by
      rw [StartRecording_rec_stat_count s t hrec, hcnt]
    constructor
    · have h := foldRecorded_rec_peaks_length (bufs.take i) (s.StartRecording t)
        (by rw [hcv]; omega)
      rw [hcv, hlen, StartRecording_rec_peaks s t hrec] at h
      simpa using h
    · have h := foldRecorded_rec_callbacks (bufs.take i) (s.StartRecording t)
      rw [hlen, StartRecording_rec_callbacks s t hrec] at h
      simpa using h
  · intro i hi
    have hlen : (reqs.take i).length = i := by
      rw [List.length_take]; omega
    obtain ⟨h1, h2, h3⟩ := foldPlayoutRequests_counts (reqs.take i) p cb hptr
      (by rw [hpcnt]; omega)
    rw [hlen] at h2 h3
    rw [hpcnt] at h2
    constructor
    · simpa using h2
    · exact h3

/-- C3 witness: one recorded delivery gives one stats update; one playout
request with a registered transport gives one playout stats update. -/
theorem C3_witness :
    (foldRecorded (AudioDeviceBuffer.init.StartRecording 0)
        ([(([] : List Int), 1)].take 1)).rec_callbacks = 1 ∧
    (foldPlayoutRequests
        ((AudioDeviceBuffer.init.RegisterAudioCallback (some nullTransport)).2)
        ([480].take 1)).play_callbacks =
      ((AudioDeviceBuffer.init.RegisterAudioCallback (some nullTransport)).2).play_callbacks
        + 1 :=
  ⟨((C3_sampling_cadence AudioDeviceBuffer.init 0 [(([] : List Int), 1)] rfl rfl
      ((AudioDeviceBuffer.init.RegisterAudioCallback (some nullTransport)).2)
      nullTransport [480] rfl rfl).1 1 (by decide)).2,
   ((C3_sampling_cadence AudioDeviceBuffer.init 0 [(([] : List Int), 1)] rfl rfl
      ((AudioDeviceBuffer.init.RegisterAudioCallback (some nullTransport)).2)
      nullTransport [480] rfl rfl).2 1 (by decide)).2⟩

/-- C8: the reporter, started at time 0 and left running over a window of T
milliseconds with T a multiple of the 10-second interval and T at least two
intervals, fires ticks at 0, 10000, ..., T - 10000 and emits its log on
every tick except the start tick: exactly T / 10000 - 1 emissions, none
during the first interval. -/
theorem C8_reporter_emissions (s : AudioDeviceBuffer) (T : Nat)
    (hmul : T % kTimerIntervalInMilliseconds = 0)
    (hT : 2 * kTimerIntervalInMilliseconds ≤ T) :
    reporterEmissions s T = T / kTimerIntervalInMilliseconds - 1 ∧
    (runReporterTicks s 0).2 = 0 := by
  constructor
  · unfold reporterEmissions
    exact (runReporterTicks_invariants s _).1
  · exact (runReporterTicks_invariants s 0).1

/-- C8 witness: a 20-second window produces exactly one emission. -/
theorem C8_witness :
    reporterEmissions AudioDeviceBuffer.init 20000 =
      20000 / kTimerIntervalInMilliseconds - 1 ∧
    (runReporterTicks AudioDeviceBuffer.init 0).2 = 0 :=
  C8_reporter_emissions AudioDeviceBuffer.init 20000 (by decide) (by decide)

/-- The sequence of peak values the wrapping 50-call counter computes over a
delivery sequence, starting from counter value c. -/
def peaksFrom (ch : Nat) : Nat → List (List Int × Nat) → List Nat
  | _, [] => []
  | c, b :: rest =>
    if 50 ≤ c + 1 then observedPeak ch b :: peaksFrom ch 0 rest
    else peaksFrom ch (c + 1) rest

lemma StartRecording_rec_samples (s : AudioDeviceBuffer) (t : Nat)
    (h : s.recording = false) :
    (s.StartRecording t).rec_samples = 0 := by
  simp [AudioDeviceBuffer.StartRecording, AudioDeviceBuffer.ResetRecStats, h]

/-- The instrumentation trace of computed peaks over a delivery sequence. -/
lemma foldRecorded_rec_peaks_values (bufs : List (List Int × Nat)) :
    ∀ s : AudioDeviceBuffer, s.rec_stat_count < 50 →
      (foldRecorded s bufs).rec_peaks =
        s.rec_peaks ++ peaksFrom s.rec_channels s.rec_stat_count bufs := by
  induction bufs with
  | nil => intro s h; simp [foldRecorded, peaksFrom]
  | cons b rest ih =>
    intro s h
    show (foldRecorded (s.SetRecordedBuffer b.1 b.2) rest).rec_peaks = _
    have hc := SetRecordedBuffer_rec_stat_count s b.1 b.2
    have hp := SetRecordedBuffer_rec_peaks s b.1 b.2
    have hch := SetRecordedBuffer_rec_channels s b.1 b.2
    by_cases h50 : 50 ≤ s.rec_stat_count + 1
    · rw [if_pos h50] at hc hp
      rw [ih _ (by omega), hc, hp, hch]
      have h49 : s.rec_stat_count = 49 := by omega
      simp [peaksFrom, h49]
    · rw [if_neg h50] at hc hp
      rw [ih _ (by omega), hc, hp, hch]
      have h49 : ¬49 ≤ s.rec_stat_count := by omega
      simp [peaksFrom, h49]

/-- The state reached in the C4 scenario: 16 kHz mono configuration,
StartRecording at time 0, then 500 consecutive SetRecordedBuffer calls each
delivering 160 all-zero frames. -/
def c4Session : AudioDeviceBuffer :=
  foldRecorded
    ((((AudioDeviceBuffer.init.SetRecordingSampleRate 16000).2.SetRecordingChannels
        1).2).StartRecording 0)
    (List.replicate 500 (List.replicate 160 (0 : Int), 160))

set_option maxRecDepth 40000 in
/-- C4: in the 16 kHz mono scenario with 500 all-zero 160-frame deliveries,
exactly 10 peak computations run and every computed peak is 0 (the peak
trace is ten zeros), the Silence Flag is still true, and once all deferred
stats updates have executed the cumulative recorded sample count is
80000. -/
theorem C4_concrete_scenario :
    c4Session.rec_peaks = List.replicate 10 0 ∧
    c4Session.only_silence_recorded = true ∧
    c4Session.rec_samples = 80000 := by
  refine ⟨?_, ?_, ?_⟩
  · unfold c4Session
    rw [foldRecorded_rec_peaks_values _ _ (by decide)]
    decide
  · unfold c4Session
    rw [foldRecorded_flag _ _ (by decide)]
    decide
  · unfold c4Session
    rw [foldRecorded_rec_samples,
        StartRecording_rec_samples _ _ (by decide),
        List.map_replicate, List.sum_replicate]
    norm_num
